import Mathlib

/-!
Verification of the name/ID resource-resolution and cross-service merge
logic of the `aapclient` command-line client.

The embedding translates, from the Python source:
  * `aapclient/common/utils.py`            — `find_resource`
  * `aapclient/gateway/v1/organization.py` — `ShowOrganization`, `CreateOrganization`,
                                             `DeleteOrganization`, `SetOrganization`
  * `aapclient/gateway/v1/user.py`         — `ShowUser`
  * `aapclient/controller/v2/inventory.py` — `DeleteInventory`

JSON response records are modelled as association lists of `JVal` values
(`Dict`): `dget d k v` is Python `d.get(k, v)` and `dset d k v` is the
assignment `d[k] = v` (prepending a binding; `List.lookup` takes the first
binding, so this is extensionally Python's dict update).  Remote services
are an explicit environment `Env` of functions; a call that may raise is a
function into `Except PyError _`.  Python exception handling (`try`/`except`)
becomes matching on `Except`; `raise CommandError(msg)` becomes
`Except.error (PyError.commandError msg)`.

Optional command-line arguments are `Option` values (`argparse` yields
`None` for an omitted flag).  The Python code tests them for *truthiness*
(`if parsed_args.name:`), under which `None`, the empty string and the
integer `0` are all false; `truthyS`/`truthyI` translate those tests
exactly.
-/

namespace AAPClient

/-- Values of decoded JSON response payloads.  `null` is Python `None`. -/
inductive JVal where
  | null
  | num (n : Int)
  | str (s : String)
  | obj (fields : List (String × JVal))

/-- A decoded JSON object: an association list from field name to value. -/
abbrev Dict := List (String × JVal)

/-- Python `d.get(k, dflt)`. -/
def dget (d : Dict) (k : String) (dflt : JVal) : JVal :=
  (d.lookup k).getD dflt

/-- Python `d[k]` where the program only reads keys that are present;
an absent key is modelled as `null`. -/
def ditem (d : Dict) (k : String) : JVal :=
  dget d k JVal.null

/-- Python `d[k] = v`.  Prepends the binding; `List.lookup` returns the
first binding for a key, so this is extensionally the dict update. -/
def dset (d : Dict) (k : String) (v : JVal) : Dict :=
  (k, v) :: d

/-- The fields of a JSON object value (Python code calls `.get` on values it
knows to be objects, e.g. `summary_fields`). -/
def jobj : JVal → Dict
  | JVal.obj f => f
  | _ => []

/-- The integer carried by a numeric JSON value (ids are always numeric). -/
def jint : JVal → Int
  | JVal.num n => n
  | _ => 0

/-- Python `str(v)` for the values that reach message formatting. -/
def pyStr : JVal → String
  | JVal.null => "None"
  | JVal.num n => toString n
  | JVal.str s => s
  | JVal.obj _ => "object"

/-- Python `v == n` for an integer `n` (true only for an equal numeric value). -/
def pyEqInt (v : JVal) (n : Int) : Bool :=
  match v with
  | JVal.num m => m == n
  | _ => false

/-- Python `v == s` for a string `s` (true only for an equal string value). -/
def pyEqStr (v : JVal) (s : String) : Bool :=
  match v with
  | JVal.str t => t == s
  | _ => false

/-- Decimal parse of a character list, `none` on any non-digit. -/
def parseDigitsAux : List Char → Nat → Option Nat
  | [], acc => some acc
  | c :: cs, acc =>
    if c.isDigit then parseDigitsAux cs (acc * 10 + (c.toNat - 48)) else none

/-- Decimal parse of a non-empty all-digits character list. -/
def parseDigits : List Char → Option Nat
  | [] => none
  | c :: cs => parseDigitsAux (c :: cs) 0

/-- Python `int(tok)` on a string: optional leading minus sign, then decimal
digits.  (Python additionally strips whitespace and accepts a leading `+`
and underscore digit separators; no claim or input in this development
depends on such tokens.) -/
def pyIntParse (s : String) : Option Int :=
  match s.data with
  | '-' :: cs => (parseDigits cs).map (fun n => -(n : Int))
  | cs => (parseDigits cs).map (fun n => (n : Int))

/-- Python `tok.isdigit()`: non-empty and all decimal digits. -/
def pyIsDigit (s : String) : Bool :=
  !s.data.isEmpty && s.data.all Char.isDigit

/-- The integer denoted by an all-digits token. -/
def digitsToInt (s : String) : Int :=
  ((parseDigits s.data).getD 0 : Nat)

/-- Failures: `commandError msg` is a raised `CommandError(msg)`;
`indexError` is an `IndexError` from `results[0]` on an empty page;
`exn msg` is any other exception raised by a service client call. -/
inductive PyError where
  | commandError (msg : String)
  | indexError
  | exn (msg : String)
deriving DecidableEq

/-- The `{count, results}` envelope of a list endpoint.  `count` is the
server-reported cardinality (non-negative), `results` the returned page. -/
structure ListResp where
  count : Nat
  results : List Dict

/-- Truthiness of an optional string argument: Python treats both `None`
and `""` as false. -/
def truthyS : Option String → Bool
  | none => false
  | some s => s != ""

/-- Truthiness of an optional integer argument: Python treats both `None`
and `0` as false. -/
def truthyI : Option Int → Bool
  | none => false
  | some n => n != 0

/-- The remote services, as seen by the commands under verification.  Every
fallible call is a function into `Except PyError _`. -/
structure Env where
  gwGetOrg : Int → Except PyError Dict
  gwListOrgs : String → ListResp
  gwCreateOrg : Dict → Except PyError Dict
  gwUpdateOrg : Int → Dict → Except PyError Dict
  gwDeleteOrg : Int → Except PyError Unit
  gwGetUser : Int → Except PyError Dict
  gwListUsers : String → ListResp
  ctrlGetOrg : Int → Except PyError Dict
  ctrlUpdateOrg : Int → Dict → Except PyError Dict
  ctrlListInvs : String → ListResp
  ctrlGetInv : Int → Except PyError Dict
  ctrlDeleteInv : Int → Except PyError Unit

/-- `utils.find_resource`, name-match phase: filter the results on an exact
`name` match; exactly one match is returned, several raise `Multiple
resources found`, none raises `Resource not found`. -/
def nameMatchStep (results : List Dict) (tok : String) : Except PyError Dict :=
  match results.filter (fun r => pyEqStr (dget r "name" JVal.null) tok) with
  | [m] => Except.ok m
  | [] => Except.error (PyError.commandError ("Resource \x27" ++ tok ++ "\x27 not found"))
  | _ => Except.error (PyError.commandError ("Multiple resources found with name \x27" ++ tok ++ "\x27"))

/-- `utils.find_resource(resources, name_or_id)`: when the token parses as
an integer, first scan the results for a record whose `id` equals it
(returning the first such record); otherwise, or when no id matches, fall
through to the exact-name match. -/
def findResource (resources : ListResp) (tok : String) : Except PyError Dict :=
  match pyIntParse tok with
  | some n =>
    match resources.results.find? (fun r => pyEqInt (dget r "id" JVal.null) n) with
    | some r => Except.ok r
    | none => nameMatchStep resources.results tok
  | none => nameMatchStep resources.results tok

theorem pyEqStr_eq_true_iff (v : JVal) (s : String) :
    pyEqStr v s = true ↔ v = JVal.str s := by
  cases v with
  | null => simp [pyEqStr]
  | num n => simp [pyEqStr]
  | str t => simp [pyEqStr]
  | obj f => simp [pyEqStr]

theorem pyEqInt_eq_true_iff (v : JVal) (n : Int) :
    pyEqInt v n = true ↔ v = JVal.num n := by
  cases v with
  | null => simp [pyEqInt]
  | num m => simp [pyEqInt]
  | str t => simp [pyEqInt]
  | obj f => simp [pyEqInt]

theorem nameMatchStep_ok (results : List Dict) (tok : String) (r : Dict)
    (h : nameMatchStep results tok = Except.ok r) :
    r ∈ results ∧ dget r "name" JVal.null = JVal.str tok := by
  rw [nameMatchStep.eq_def] at h
  split at h
  · cases h
    rename_i m hl
    have hmem : r ∈ results.filter (fun r => pyEqStr (dget r "name" JVal.null) tok) := by
      rw [hl]; simp
    have := List.mem_filter.mp hmem
    exact ⟨this.1, (pyEqStr_eq_true_iff _ _).mp this.2⟩
  · cases h
  · cases h

theorem nameMatchStep_not_one (results : List Dict) (tok : String)
    (h : (results.filter (fun r => pyEqStr (dget r "name" JVal.null) tok)).length ≠ 1) :
    ∃ e, nameMatchStep results tok = Except.error e := by
  rw [nameMatchStep.eq_def]
  split
  · rename_i m hl
    exact absurd (by rw [hl]; rfl) h
  · exact ⟨_, rfl⟩
  · exact ⟨_, rfl⟩

theorem findResource_ok (resources : ListResp) (tok : String) (r : Dict)
    (h : findResource resources tok = Except.ok r) :
    r ∈ resources.results ∧
      ((∃ n, pyIntParse tok = some n ∧ dget r "id" JVal.null = JVal.num n) ∨
        dget r "name" JVal.null = JVal.str tok) := by
  rw [findResource.eq_def] at h
  split at h
  · rename_i n hp
    split at h
    · rename_i r' hf
      cases h
      refine ⟨List.mem_of_find?_eq_some hf, Or.inl ⟨n, hp, ?_⟩⟩
      have hpa := @List.find?_some _ _ _ _ hf
      exact (pyEqInt_eq_true_iff _ _).mp hpa
    · have := nameMatchStep_ok _ _ _ h
      exact ⟨this.1, Or.inr this.2⟩
  · have := nameMatchStep_ok _ _ _ h
    exact ⟨this.1, Or.inr this.2⟩

theorem findResource_id_first (resources : ListResp) (tok : String) (n : Int) (r : Dict)
    (hp : pyIntParse tok = some n)
    (hf : resources.results.find? (fun r => pyEqInt (dget r "id" JVal.null) n) = some r) :
    findResource resources tok = Except.ok r := by
  simp only [findResource, hp, hf]

theorem findResource_no_match_err (resources : ListResp) (tok : String)
    (hid : ∀ n, pyIntParse tok = some n →
      resources.results.find? (fun r => pyEqInt (dget r "id" JVal.null) n) = none)
    (hname : (resources.results.filter
      (fun r => pyEqStr (dget r "name" JVal.null) tok)).length ≠ 1) :
    ∃ e, findResource resources tok = Except.error e := by
  rw [findResource.eq_def]
  split
  · rename_i n hp
    rw [hid n hp]
    exact nameMatchStep_not_one _ _ hname
  · exact nameMatchStep_not_one _ _ hname

/-- C10: whenever `find_resource` returns a record, that record is an
element of the supplied results and either its `id` equals the token parsed
as an integer or its `name` equals the token exactly; the ID probe is tried
before the name match, so a record whose id matches the numeric token is
returned in preference to any name match; and with zero or multiple
exact-name matches and no id match, `find_resource` raises instead of
returning a first match. -/
theorem find_resource_invariant :
    (∀ (resources : ListResp) (tok : String) (r : Dict),
      findResource resources tok = Except.ok r →
        r ∈ resources.results ∧
          ((∃ n, pyIntParse tok = some n ∧ dget r "id" JVal.null = JVal.num n) ∨
            dget r "name" JVal.null = JVal.str tok)) ∧
    (∀ (resources : ListResp) (tok : String) (n : Int) (r : Dict),
      pyIntParse tok = some n →
      resources.results.find? (fun r => pyEqInt (dget r "id" JVal.null) n) = some r →
        findResource resources tok = Except.ok r) ∧
    (∀ (resources : ListResp) (tok : String),
      (∀ n, pyIntParse tok = some n →
        resources.results.find? (fun r => pyEqInt (dget r "id" JVal.null) n) = none) →
      (resources.results.filter
        (fun r => pyEqStr (dget r "name" JVal.null) tok)).length ≠ 1 →
        ∃ e, findResource resources tok = Except.error e) :=
  ⟨findResource_ok, findResource_id_first, findResource_no_match_err⟩

/-- A record named "beta" with id 7. -/
def recBeta : Dict := [("id", JVal.num 7), ("name", JVal.str "beta")]

/-- A record named "7" (a numeric name) with id 3. -/
def recSeven : Dict := [("id", JVal.num 3), ("name", JVal.str "7")]

/-- A two-record result page used to exercise `find_resource`. -/
def respC10 : ListResp := ⟨2, [recBeta, recSeven]⟩

/-- C10 witness: on the page `[{id 7, name "beta"}, {id 3, name "7"}]`, the
token `"7"` is resolved by the id probe to the record with id 7, in
preference to the record literally named `"7"`; and the token `"gamma"`
(zero name matches) errs. -/
theorem find_resource_invariant_witness :
    (recBeta ∈ respC10.results ∧
      ((∃ n, pyIntParse "7" = some n ∧ dget recBeta "id" JVal.null = JVal.num n) ∨
        dget recBeta "name" JVal.null = JVal.str "7")) ∧
    findResource respC10 "7" = Except.ok recBeta ∧
    (∃ e, findResource respC10 "gamma" = Except.error e) :=
  ⟨find_resource_invariant.1 respC10 "7" recBeta rfl,
   find_resource_invariant.2.1 respC10 "7" 7 recBeta rfl rfl,
   find_resource_invariant.2.2 respC10 "gamma"
     (fun n h => by rw [(rfl : pyIntParse "gamma" = none)] at h; cases h)
     (by intro h; rw [(rfl : (respC10.results.filter
       (fun r => pyEqStr (dget r "name" JVal.null) "gamma")).length = 0)] at h; cases h)⟩

/-- Arguments of `aap organization show`: the optional positional
reference and the mutually exclusive `--id` / `--name` flags (`argparse`
yields `none` for an omitted argument). -/
structure ShowOrgArgs where
  organization : Option String
  id : Option Int
  name : Option String

/-- Arguments of `aap user show`: positional reference plus the mutually
exclusive `--id` / `--username` flags. -/
structure ShowUserArgs where
  user : Option String
  id : Option Int
  username : Option String

/-- The cross-reference failure message of `ShowOrganization.take_action`
(and `DeleteOrganization`/`SetOrganization`, which format it identically). -/
def orgMismatchMsg (i : Int) (fetched expected : String) : String :=
  "ID " ++ toString i ++ " and name \x27" ++ expected ++
    "\x27 refer to different organizations: ID " ++ toString i ++ " is \x27" ++
    fetched ++ "\x27, not \x27" ++ expected ++ "\x27"

/-- The cross-reference failure message of `ShowUser.take_action`. -/
def userMismatchMsg (i : Int) (fetched expected : String) : String :=
  "ID " ++ toString i ++ " and username \x27" ++ expected ++
    "\x27 refer to different users: ID " ++ toString i ++ " is \x27" ++
    fetched ++ "\x27, not \x27" ++ expected ++ "\x27"

/-- Name-lookup arm of `ShowOrganization.take_action`: filtered list call,
`count == 0` raises not-found, `count > 1` raises the ambiguity error, else
`results[0]` is taken (an empty page would raise `IndexError`). -/
def orgNameLookup (env : Env) (s : String) : Except PyError (Dict × Int) :=
  let orgs := env.gwListOrgs s
  if orgs.count = 0 then
    Except.error (PyError.commandError
      ("Organization with name \x27" ++ s ++ "\x27 not found"))
  else if orgs.count > 1 then
    Except.error (PyError.commandError
      ("Multiple organizations found with name \x27" ++ s ++ "\x27"))
  else
    match orgs.results with
    | [] => Except.error PyError.indexError
    | gw :: _ => Except.ok (gw, jint (ditem gw "id"))

/-- The search name of the name-lookup arm: Python
`parsed_args.name or parsed_args.organization`. -/
def orgSearchName (a : ShowOrgArgs) : String :=
  if truthyS a.name then a.name.getD "" else a.organization.getD ""

/-- Resolution phase of `ShowOrganization.take_action` (organization.py
lines 109-153): validation, then ID lookup with optional cross-validation
against the positional name, or the filtered name lookup.  Returns the
gateway record together with the organization id used for the subsequent
controller fetch. -/
def showOrgResolve (env : Env) (a : ShowOrgArgs) : Except PyError (Dict × Int) :=
  if !(truthyS a.organization || truthyI a.id || truthyS a.name) then
    Except.error (PyError.commandError
      "Must specify an organization (by positional argument, --id, or --name)")
  else if truthyS a.name && truthyS a.organization then
    Except.error (PyError.commandError
      "Cannot use positional argument with --name (redundant)")
  else if truthyI a.id && truthyS a.organization then
    let i := a.id.getD 0
    let ref := a.organization.getD ""
    match env.gwGetOrg i with
    | Except.error _ => Except.error (PyError.commandError
        ("Organization with ID " ++ toString i ++ " not found"))
    | Except.ok gw =>
      if !(pyEqStr (ditem gw "name") ref) then
        Except.error (PyError.commandError
          (orgMismatchMsg i (pyStr (ditem gw "name")) ref))
      else Except.ok (gw, i)
  else if truthyI a.id then
    let i := a.id.getD 0
    match env.gwGetOrg i with
    | Except.error _ => Except.error (PyError.commandError
        ("Organization with ID " ++ toString i ++ " not found"))
    | Except.ok gw => Except.ok (gw, i)
  else
    orgNameLookup env (orgSearchName a)

/-- Name-lookup arm of `ShowUser.take_action`, over the `username` filter. -/
def userNameLookup (env : Env) (s : String) : Except PyError Dict :=
  let users := env.gwListUsers s
  if users.count = 0 then
    Except.error (PyError.commandError
      ("User with username \x27" ++ s ++ "\x27 not found"))
  else if users.count > 1 then
    Except.error (PyError.commandError
      ("Multiple users found with username \x27" ++ s ++ "\x27"))
  else
    match users.results with
    | [] => Except.error PyError.indexError
    | u :: _ => Except.ok u

/-- The search username: Python `parsed_args.username or parsed_args.user`. -/
def userSearchName (a : ShowUserArgs) : String :=
  if truthyS a.username then a.username.getD "" else a.user.getD ""

/-- Resolution of `ShowUser.take_action` (user.py lines 133-173). -/
def showUserResolve (env : Env) (a : ShowUserArgs) : Except PyError Dict :=
  if !(truthyS a.user || truthyI a.id || truthyS a.username) then
    Except.error (PyError.commandError
      "Must specify a user (by positional argument, --id, or --username)")
  else if truthyS a.username && truthyS a.user then
    Except.error (PyError.commandError
      "Cannot use positional argument with --username (redundant)")
  else if truthyI a.id && truthyS a.user then
    let i := a.id.getD 0
    let ref := a.user.getD ""
    match env.gwGetUser i with
    | Except.error _ => Except.error (PyError.commandError
        ("User with ID " ++ toString i ++ " not found"))
    | Except.ok u =>
      if !(pyEqStr (ditem u "username") ref) then
        Except.error (PyError.commandError
          (userMismatchMsg i (pyStr (ditem u "username")) ref))
      else Except.ok u
  else if truthyI a.id then
    let i := a.id.getD 0
    match env.gwGetUser i with
    | Except.error _ => Except.error (PyError.commandError
        ("User with ID " ++ toString i ++ " not found"))
    | Except.ok u => Except.ok u
  else
    userNameLookup env (userSearchName a)

/-- A service environment in which every record fetch fails and every list
is empty; used to instantiate universally quantified theorems. -/
def stubEnv : Env where
  gwGetOrg := fun _ => Except.error (PyError.exn "unavailable")
  gwListOrgs := fun _ => ⟨0, []⟩
  gwCreateOrg := fun _ => Except.error (PyError.exn "unavailable")
  gwUpdateOrg := fun _ _ => Except.error (PyError.exn "unavailable")
  gwDeleteOrg := fun _ => Except.error (PyError.exn "unavailable")
  gwGetUser := fun _ => Except.error (PyError.exn "unavailable")
  gwListUsers := fun _ => ⟨0, []⟩
  ctrlGetOrg := fun _ => Except.error (PyError.exn "unavailable")
  ctrlUpdateOrg := fun _ _ => Except.error (PyError.exn "unavailable")
  ctrlListInvs := fun _ => ⟨0, []⟩
  ctrlGetInv := fun _ => Except.error (PyError.exn "unavailable")
  ctrlDeleteInv := fun _ => Except.error (PyError.exn "unavailable")

/-- C9: when an explicit name flag and a positional reference are both
supplied (Python truthiness: a non-`None`, non-empty value), resolution
fails with the redundant-argument error.  The statement is universally
quantified over the environment, so the failure happens regardless of what
any lookup would return — no lookup result can influence it — and it holds
even when `--id` is also set, i.e. the check precedes the explicit-id and
name-lookup arms. -/
theorem redundant_name_with_positional :
    (∀ (env : Env) (a : ShowOrgArgs),
      truthyS a.name = true → truthyS a.organization = true →
        showOrgResolve env a = Except.error (PyError.commandError
          "Cannot use positional argument with --name (redundant)")) ∧
    (∀ (env : Env) (a : ShowUserArgs),
      truthyS a.username = true → truthyS a.user = true →
        showUserResolve env a = Except.error (PyError.commandError
          "Cannot use positional argument with --username (redundant)")) := by
  constructor
  · intro env a h1 h2
    simp [showOrgResolve, h1, h2]
  · intro env a h1 h2
    simp [showUserResolve, h1, h2]

/-- C9 witness: `aap organization show prod --name prod` (values even
agreeing, with the resource existing in no service) is rejected as
redundant. -/
theorem redundant_name_with_positional_witness :
    showOrgResolve stubEnv ⟨some "prod", none, some "prod"⟩ =
      Except.error (PyError.commandError
        "Cannot use positional argument with --name (redundant)") :=
  redundant_name_with_positional.1 stubEnv ⟨some "prod", none, some "prod"⟩ rfl rfl

theorem showOrgResolve_name_branch (env : Env) (a : ShowOrgArgs)
    (h1 : (truthyS a.organization || truthyI a.id || truthyS a.name) = true)
    (h2 : (truthyS a.name && truthyS a.organization) = false)
    (h3 : truthyI a.id = false) :
    showOrgResolve env a = orgNameLookup env (orgSearchName a) := by
  cases horg : truthyS a.organization with
  | true =>
    cases hname : truthyS a.name with
    | true => rw [hname, horg] at h2; cases h2
    | false => simp [showOrgResolve, horg, hname, h3]
  | false =>
    cases hname : truthyS a.name with
    | true => simp [showOrgResolve, horg, hname, h3]
    | false => rw [horg, hname, h3] at h1; cases h1

theorem showUserResolve_name_branch (env : Env) (a : ShowUserArgs)
    (h1 : (truthyS a.user || truthyI a.id || truthyS a.username) = true)
    (h2 : (truthyS a.username && truthyS a.user) = false)
    (h3 : truthyI a.id = false) :
    showUserResolve env a = userNameLookup env (userSearchName a) := by
  cases huser : truthyS a.user with
  | true =>
    cases hun : truthyS a.username with
    | true => rw [hun, huser] at h2; cases h2
    | false => simp [showUserResolve, huser, hun, h3]
  | false =>
    cases hun : truthyS a.username with
    | true => simp [showUserResolve, huser, hun, h3]
    | false => rw [huser, hun, h3] at h1; cases h1

theorem orgNameLookup_ambiguous (env : Env) (s : String)
    (h : (env.gwListOrgs s).count > 1) :
    orgNameLookup env s = Except.error (PyError.commandError
      ("Multiple organizations found with name \x27" ++ s ++ "\x27")) := by
  have h0 : ¬ (env.gwListOrgs s).count = 0 := by omega
  simp [orgNameLookup, h0, h]

theorem orgNameLookup_ok (env : Env) (s : String) (gw : Dict) (i : Int)
    (h : orgNameLookup env s = Except.ok (gw, i)) :
    (env.gwListOrgs s).count = 1 ∧
      (env.gwListOrgs s).results.head? = some gw := by
  simp only [orgNameLookup] at h
  split at h
  · cases h
  · split at h
    · cases h
    · rename_i h0 h1
      split at h
      · cases h
      · cases h
        rename_i heq
        exact ⟨by omega, by rw [heq]; rfl⟩

theorem userNameLookup_ambiguous (env : Env) (s : String)
    (h : (env.gwListUsers s).count > 1) :
    userNameLookup env s = Except.error (PyError.commandError
      ("Multiple users found with username \x27" ++ s ++ "\x27")) := by
  have h0 : ¬ (env.gwListUsers s).count = 0 := by omega
  simp [userNameLookup, h0, h]

theorem userNameLookup_ok (env : Env) (s : String) (u : Dict)
    (h : userNameLookup env s = Except.ok u) :
    (env.gwListUsers s).count = 1 ∧
      (env.gwListUsers s).results.head? = some u := by
  simp only [userNameLookup] at h
  split at h
  · cases h
  · split at h
    · cases h
    · rename_i h0 h1
      split at h
      · cases h
      · cases h
        rename_i heq
        exact ⟨by omega, by rw [heq]; rfl⟩

/-- C1: on the name-lookup arm (explicit name flag or bare positional
reference), a filtered list response with `count > 1` makes resolution
raise the ambiguity error and return no record, and a record is returned
only when `count == 1` (and then it is the single listed candidate). -/
theorem name_lookup_cardinality :
    (∀ (env : Env) (a : ShowOrgArgs),
      (truthyS a.organization || truthyI a.id || truthyS a.name) = true →
      (truthyS a.name && truthyS a.organization) = false →
      truthyI a.id = false →
        (((env.gwListOrgs (orgSearchName a)).count > 1 →
          showOrgResolve env a = Except.error (PyError.commandError
            ("Multiple organizations found with name \x27" ++ orgSearchName a ++ "\x27")) ∧
          ∀ p, showOrgResolve env a ≠ Except.ok p) ∧
         (∀ gw i, showOrgResolve env a = Except.ok (gw, i) →
          (env.gwListOrgs (orgSearchName a)).count = 1 ∧
          (env.gwListOrgs (orgSearchName a)).results.head? = some gw))) ∧
    (∀ (env : Env) (a : ShowUserArgs),
      (truthyS a.user || truthyI a.id || truthyS a.username) = true →
      (truthyS a.username && truthyS a.user) = false →
      truthyI a.id = false →
        (((env.gwListUsers (userSearchName a)).count > 1 →
          showUserResolve env a = Except.error (PyError.commandError
            ("Multiple users found with username \x27" ++ userSearchName a ++ "\x27")) ∧
          ∀ u, showUserResolve env a ≠ Except.ok u) ∧
         (∀ u, showUserResolve env a = Except.ok u →
          (env.gwListUsers (userSearchName a)).count = 1 ∧
          (env.gwListUsers (userSearchName a)).results.head? = some u))) := by
  constructor
  · intro env a h1 h2 h3
    have hb := showOrgResolve_name_branch env a h1 h2 h3
    constructor
    · intro hc
      have := orgNameLookup_ambiguous env (orgSearchName a) hc
      rw [hb, this]
      exact ⟨rfl, fun p hp => by cases hp⟩
    · intro gw i hok
      rw [hb] at hok
      exact orgNameLookup_ok env _ gw i hok
  · intro env a h1 h2 h3
    have hb := showUserResolve_name_branch env a h1 h2 h3
    constructor
    · intro hc
      have := userNameLookup_ambiguous env (userSearchName a) hc
      rw [hb, this]
      exact ⟨rfl, fun u hu => by cases hu⟩
    · intro u hok
      rw [hb] at hok
      exact userNameLookup_ok env _ u hok

/-- Two distinct organizations that share the name "dup". -/
def envAmbig : Env :=
  { stubEnv with
    gwListOrgs := fun s =>
      if s = "dup" then
        ⟨2, [[("id", JVal.num 1), ("name", JVal.str "dup")],
             [("id", JVal.num 2), ("name", JVal.str "dup")]]⟩
      else ⟨0, []⟩ }

/-- C1 witness: with two organizations named "dup", `aap organization show
dup` raises the ambiguity error and returns neither candidate. -/
theorem name_lookup_cardinality_witness :
    showOrgResolve envAmbig ⟨some "dup", none, none⟩ =
      Except.error (PyError.commandError
        ("Multiple organizations found with name \x27" ++ "dup" ++ "\x27")) ∧
    ∀ p, showOrgResolve envAmbig ⟨some "dup", none, none⟩ ≠ Except.ok p :=
  (name_lookup_cardinality.1 envAmbig ⟨some "dup", none, none⟩ rfl rfl rfl).1
    (by decide)

/-- Substring containment, on the underlying character lists. -/
def strContains (hay needle : String) : Prop :=
  needle.data <:+: hay.data

theorem orgMismatchMsg_contains_fetched (i : Int) (fetched expected : String) :
    strContains (orgMismatchMsg i fetched expected) fetched := by
  refine ⟨("ID " ++ toString i ++ " and name \x27" ++ expected ++
    "\x27 refer to different organizations: ID " ++ toString i ++ " is \x27").data,
    ("\x27, not \x27" ++ expected ++ "\x27").data, ?_⟩
  simp [orgMismatchMsg, String.data_append]

theorem orgMismatchMsg_contains_expected (i : Int) (fetched expected : String) :
    strContains (orgMismatchMsg i fetched expected) expected := by
  refine ⟨("ID " ++ toString i ++ " and name \x27").data,
    ("\x27 refer to different organizations: ID " ++ toString i ++ " is \x27" ++
      fetched ++ "\x27, not \x27" ++ expected ++ "\x27").data, ?_⟩
  simp [orgMismatchMsg, String.data_append]

theorem userMismatchMsg_contains_fetched (i : Int) (fetched expected : String) :
    strContains (userMismatchMsg i fetched expected) fetched := by
  refine ⟨("ID " ++ toString i ++ " and username \x27" ++ expected ++
    "\x27 refer to different users: ID " ++ toString i ++ " is \x27").data,
    ("\x27, not \x27" ++ expected ++ "\x27").data, ?_⟩
  simp [userMismatchMsg, String.data_append]

theorem userMismatchMsg_contains_expected (i : Int) (fetched expected : String) :
    strContains (userMismatchMsg i fetched expected) expected := by
  refine ⟨("ID " ++ toString i ++ " and username \x27").data,
    ("\x27 refer to different users: ID " ++ toString i ++ " is \x27" ++
      fetched ++ "\x27, not \x27" ++ expected ++ "\x27").data, ?_⟩
  simp [userMismatchMsg, String.data_append]

/-- C3: with an explicit `--id` and a positional reference both supplied,
when the record fetched by that id exists but its name (username for
users) differs from the reference, resolution fails with the
cross-reference mismatch error, whose message contains both the fetched
and the expected name, and the record is not returned. -/
theorem cross_reference_mismatch :
    (∀ (env : Env) (a : ShowOrgArgs) (i : Int) (ref : String) (gw : Dict),
      a.id = some i → i ≠ 0 → a.organization = some ref → ref ≠ "" →
      truthyS a.name = false →
      env.gwGetOrg i = Except.ok gw →
      pyEqStr (ditem gw "name") ref = false →
        showOrgResolve env a = Except.error (PyError.commandError
          (orgMismatchMsg i (pyStr (ditem gw "name")) ref)) ∧
        strContains (orgMismatchMsg i (pyStr (ditem gw "name")) ref)
          (pyStr (ditem gw "name")) ∧
        strContains (orgMismatchMsg i (pyStr (ditem gw "name")) ref) ref ∧
        ∀ p, showOrgResolve env a ≠ Except.ok p) ∧
    (∀ (env : Env) (a : ShowUserArgs) (i : Int) (ref : String) (u : Dict),
      a.id = some i → i ≠ 0 → a.user = some ref → ref ≠ "" →
      truthyS a.username = false →
      env.gwGetUser i = Except.ok u →
      pyEqStr (ditem u "username") ref = false →
        showUserResolve env a = Except.error (PyError.commandError
          (userMismatchMsg i (pyStr (ditem u "username")) ref)) ∧
        strContains (userMismatchMsg i (pyStr (ditem u "username")) ref)
          (pyStr (ditem u "username")) ∧
        strContains (userMismatchMsg i (pyStr (ditem u "username")) ref) ref ∧
        ∀ p, showUserResolve env a ≠ Except.ok p) := by
  constructor
  · intro env a i ref gw hid hi href hr hn hok hneq
    have hmain : showOrgResolve env a = Except.error (PyError.commandError
        (orgMismatchMsg i (pyStr (ditem gw "name")) ref)) := by
      have hti : truthyI (some i) = true := by simp [truthyI, hi]
      have hto : truthyS (some ref) = true := by simp [truthyS, hr]
      simp [showOrgResolve, hti, hto, hn, hid, href, hok, hneq]
    refine ⟨hmain, orgMismatchMsg_contains_fetched _ _ _,
      orgMismatchMsg_contains_expected _ _ _, fun p hp => ?_⟩
    rw [hmain] at hp
    cases hp
  · intro env a i ref u hid hi href hr hn hok hneq
    have hmain : showUserResolve env a = Except.error (PyError.commandError
        (userMismatchMsg i (pyStr (ditem u "username")) ref)) := by
      have hti : truthyI (some i) = true := by simp [truthyI, hi]
      have hto : truthyS (some ref) = true := by simp [truthyS, hr]
      simp [showUserResolve, hti, hto, hn, hid, href, hok, hneq]
    refine ⟨hmain, userMismatchMsg_contains_fetched _ _ _,
      userMismatchMsg_contains_expected _ _ _, fun p hp => ?_⟩
    rw [hmain] at hp
    cases hp

/-- An environment in which organization 5 is named "bar". -/
def envIdBar : Env :=
  { stubEnv with
    gwGetOrg := fun i =>
      if i = 5 then Except.ok [("id", JVal.num 5), ("name", JVal.str "bar")]
      else Except.error (PyError.exn "HTTP 404") }

/-- C3 witness: `aap organization show foo --id 5` where organization 5 is
named "bar" raises the mismatch error containing both "bar" and "foo". -/
theorem cross_reference_mismatch_witness :
    showOrgResolve envIdBar ⟨some "foo", some 5, none⟩ =
      Except.error (PyError.commandError (orgMismatchMsg 5 "bar" "foo")) ∧
    strContains (orgMismatchMsg 5 "bar" "foo") "bar" ∧
    strContains (orgMismatchMsg 5 "bar" "foo") "foo" :=
  have h := cross_reference_mismatch.1 envIdBar ⟨some "foo", some 5, none⟩ 5 "foo"
    [("id", JVal.num 5), ("name", JVal.str "bar")]
    rfl (by decide) rfl (by decide) rfl rfl rfl
  ⟨h.1, h.2.1, h.2.2.1⟩

theorem dget_dset_self (d : Dict) (k : String) (v w : JVal) :
    dget (dset d k v) k w = v := by
  simp [dget, dset, List.lookup]

theorem dget_dset_ne (d : Dict) (k k' : String) (v w : JVal) (h : k' ≠ k) :
    dget (dset d k v) k' w = dget d k' w := by
  have hb : (k' == k) = false := beq_eq_false_iff_ne.mpr h
  simp [dget, dset, List.lookup, hb]

theorem lookup_dset_ne (d : Dict) (k k' : String) (v : JVal) (h : k' ≠ k) :
    (dset d k v).lookup k' = d.lookup k' := by
  have hb : (k' == k) = false := beq_eq_false_iff_ne.mpr h
  simp [dset, List.lookup, hb]

/-- Merge step of `ShowOrganization.take_action` (organization.py lines
162-184): start from a copy of the gateway record; when the controller
record is present (Python dict truthiness: non-empty), overlay the
operational fields and overwrite the five relationship counters from the
controller's `related_field_counts`; otherwise fall back to the gateway's
own `users`/`teams` counts and zero for the controller-only counters. -/
def mergeOrg (gw ctrl : Dict) : Dict :=
  if ctrl.isEmpty then
    let gc := jobj (dget (jobj (dget gw "summary_fields" (JVal.obj [])))
      "related_field_counts" (JVal.obj []))
    let d1 := dset gw "users" (dget gc "users" (JVal.num 0))
    let d2 := dset d1 "teams" (dget gc "teams" (JVal.num 0))
    let d3 := dset d2 "projects" (JVal.num 0)
    let d4 := dset d3 "job_templates" (JVal.num 0)
    dset d4 "inventories" (JVal.num 0)
  else
    let d1 := dset gw "max_hosts" (dget ctrl "max_hosts" JVal.null)
    let d2 := dset d1 "custom_virtualenv" (dget ctrl "custom_virtualenv" JVal.null)
    let d3 := dset d2 "default_environment" (dget ctrl "default_environment" JVal.null)
    let cc := jobj (dget (jobj (dget ctrl "summary_fields" (JVal.obj [])))
      "related_field_counts" (JVal.obj []))
    let d4 := dset d3 "users" (dget cc "users" (JVal.num 0))
    let d5 := dset d4 "teams" (dget cc "teams" (JVal.num 0))
    let d6 := dset d5 "projects" (dget cc "projects" (JVal.num 0))
    let d7 := dset d6 "job_templates" (dget cc "job_templates" (JVal.num 0))
    dset d7 "inventories" (dget cc "inventories" (JVal.num 0))

/-- The controller record used by the merge: a failed fetch is caught and
replaced by the empty dict (`controller_org = {}`). -/
def ctrlOrEmpty : Except PyError Dict → Dict
  | Except.ok d => d
  | Except.error _ => []

/-- `ShowOrganization.take_action`: resolve, then fetch the controller
record for the resolved id (failure downgraded to `{}`) and merge. -/
def showOrgTakeAction (env : Env) (a : ShowOrgArgs) : Except PyError Dict :=
  match showOrgResolve env a with
  | Except.error e => Except.error e
  | Except.ok (gw, i) => Except.ok (mergeOrg gw (ctrlOrEmpty (env.ctrlGetOrg i)))

/-- C2: merging an identity record with a present (non-empty) operational
record takes the identity fields (`id`, `name`, `description`, `managed`,
`created`, `modified`) from the identity record — whatever values the
operational record carries, since the statement quantifies over all
operational records — while the operational-only fields come from the
operational record's top level and the five relationship counters come
from its `summary_fields.related_field_counts`, exclusively. -/
theorem merge_field_precedence :
    ∀ (gw ctrl : Dict), ctrl.isEmpty = false →
      (ditem (mergeOrg gw ctrl) "id" = ditem gw "id" ∧
       ditem (mergeOrg gw ctrl) "name" = ditem gw "name" ∧
       ditem (mergeOrg gw ctrl) "description" = ditem gw "description" ∧
       ditem (mergeOrg gw ctrl) "managed" = ditem gw "managed" ∧
       ditem (mergeOrg gw ctrl) "created" = ditem gw "created" ∧
       ditem (mergeOrg gw ctrl) "modified" = ditem gw "modified") ∧
      (ditem (mergeOrg gw ctrl) "max_hosts" = dget ctrl "max_hosts" JVal.null ∧
       ditem (mergeOrg gw ctrl) "custom_virtualenv" =
         dget ctrl "custom_virtualenv" JVal.null ∧
       ditem (mergeOrg gw ctrl) "default_environment" =
         dget ctrl "default_environment" JVal.null) ∧
      (let cc := jobj (dget (jobj (dget ctrl "summary_fields" (JVal.obj [])))
         "related_field_counts" (JVal.obj []))
       ditem (mergeOrg gw ctrl) "users" = dget cc "users" (JVal.num 0) ∧
       ditem (mergeOrg gw ctrl) "teams" = dget cc "teams" (JVal.num 0) ∧
       ditem (mergeOrg gw ctrl) "projects" = dget cc "projects" (JVal.num 0) ∧
       ditem (mergeOrg gw ctrl) "job_templates" =
         dget cc "job_templates" (JVal.num 0) ∧
       ditem (mergeOrg gw ctrl) "inventories" =
         dget cc "inventories" (JVal.num 0)) := by
  intro gw ctrl h
  simp [mergeOrg, h, ditem, dget, dset, List.lookup]

/-- A divergent pair of records: the identity record names the
organization "A", the operational record "B" and carries `max_hosts`. -/
def gwRecA : Dict :=
  [("id", JVal.num 9), ("name", JVal.str "A"), ("description", JVal.str "ident"),
   ("managed", JVal.str "False"), ("created", JVal.str "2025-01-01"),
   ("modified", JVal.str "2025-06-01")]

/-- The operational record for the C2 witness, hypothetically divergent on
every identity field. -/
def ctrlRecB : Dict :=
  [("id", JVal.num 999), ("name", JVal.str "B"), ("description", JVal.str "oper"),
   ("max_hosts", JVal.num 50),
   ("summary_fields", JVal.obj [("related_field_counts",
     JVal.obj [("users", JVal.num 4), ("teams", JVal.num 2),
               ("projects", JVal.num 7)])])]

/-- C2 witness: merging the "A" identity record with the divergent "B"
operational record keeps `name = "A"` and `id = 9`, takes `max_hosts = 50`
and the counters from the operational record, and defaults the counters it
does not list to 0. -/
theorem merge_field_precedence_witness :
    ditem (mergeOrg gwRecA ctrlRecB) "name" = JVal.str "A" ∧
    ditem (mergeOrg gwRecA ctrlRecB) "id" = JVal.num 9 ∧
    ditem (mergeOrg gwRecA ctrlRecB) "max_hosts" = JVal.num 50 ∧
    ditem (mergeOrg gwRecA ctrlRecB) "users" = JVal.num 4 ∧
    ditem (mergeOrg gwRecA ctrlRecB) "inventories" = JVal.num 0 :=
  have h := merge_field_precedence gwRecA ctrlRecB rfl
  ⟨h.1.2.1.trans rfl, h.1.1.trans rfl, (h.2.1.1).trans rfl,
   h.2.2.1.trans rfl, h.2.2.2.2.2.2.trans rfl⟩

/-- C4: when the operational fetch failed, the merge still completes — the
command returns a merged record instead of raising — with the `users` and
`teams` counters taken from the identity record's own
`summary_fields.related_field_counts` (so 0 when absent there), the
controller-only counters 0, and the operational-only fields left exactly
as in the identity record (hence absent when absent there). -/
theorem merge_fallback_no_raise :
    ∀ (env : Env) (a : ShowOrgArgs) (gw : Dict) (i : Int) (e : PyError),
      showOrgResolve env a = Except.ok (gw, i) →
      env.ctrlGetOrg i = Except.error e →
      (let m := mergeOrg gw []
       let gc := jobj (dget (jobj (dget gw "summary_fields" (JVal.obj [])))
         "related_field_counts" (JVal.obj []))
       showOrgTakeAction env a = Except.ok m ∧
       ditem m "users" = dget gc "users" (JVal.num 0) ∧
       ditem m "teams" = dget gc "teams" (JVal.num 0) ∧
       ditem m "projects" = JVal.num 0 ∧
       ditem m "job_templates" = JVal.num 0 ∧
       ditem m "inventories" = JVal.num 0 ∧
       (gc.lookup "users" = none → ditem m "users" = JVal.num 0) ∧
       m.lookup "max_hosts" = gw.lookup "max_hosts" ∧
       m.lookup "custom_virtualenv" = gw.lookup "custom_virtualenv" ∧
       m.lookup "default_environment" = gw.lookup "default_environment") := by
  intro env a gw i e hres hctrl
  refine ⟨?_, ?_, ?_, ?_, ?_, ?_, ?_, ?_, ?_, ?_⟩
  · simp [showOrgTakeAction, hres, hctrl, ctrlOrEmpty]
  · simp [mergeOrg, ditem, dget, dset, List.lookup]
  · simp [mergeOrg, ditem, dget, dset, List.lookup]
  · simp [mergeOrg, ditem, dget, dset, List.lookup]
  · simp [mergeOrg, ditem, dget, dset, List.lookup]
  · simp [mergeOrg, ditem, dget, dset, List.lookup]
  · intro hnone
    simp only [dget] at hnone
    simp [mergeOrg, ditem, dget, dset, List.lookup, hnone]
  · simp [mergeOrg, dset, List.lookup]
  · simp [mergeOrg, dset, List.lookup]
  · simp [mergeOrg, dset, List.lookup]

/-- An environment with a single organization "solo" known to the gateway
and an unreachable controller. -/
def envSolo : Env :=
  { stubEnv with
    gwListOrgs := fun s =>
      if s = "solo" then
        ⟨1, [[("id", JVal.num 3), ("name", JVal.str "solo")]]⟩
      else ⟨0, []⟩ }

/-- C4 witness: `aap organization show solo` with the controller fetch
failing still succeeds, with all counters 0 (the gateway record has no
summary fields) and no `max_hosts` key. -/
theorem merge_fallback_no_raise_witness :
    showOrgTakeAction envSolo ⟨some "solo", none, none⟩ =
      Except.ok (mergeOrg [("id", JVal.num 3), ("name", JVal.str "solo")] []) ∧
    ditem (mergeOrg [("id", JVal.num 3), ("name", JVal.str "solo")] []) "users" =
      JVal.num 0 ∧
    (mergeOrg [("id", JVal.num 3), ("name", JVal.str "solo")] []).lookup
      "max_hosts" = none :=
  have h := merge_fallback_no_raise envSolo ⟨some "solo", none, none⟩
    [("id", JVal.num 3), ("name", JVal.str "solo")] 3 (PyError.exn "unavailable")
    rfl rfl
  ⟨h.1, h.2.2.2.2.2.2.1 rfl, h.2.2.2.2.2.2.2.1.trans rfl⟩

/-- A write call issued to a remote service.  Read calls are not recorded;
the trace serves to state the ordering of writes. -/
inductive Call where
  | gwCreateOrg (data : Dict)
  | gwUpdateOrg (i : Int) (data : Dict)
  | ctrlUpdateOrg (i : Int) (data : Dict)

/-- Arguments of `aap organization create`. -/
structure CreateOrgArgs where
  name : String
  description : Option String
  maxHosts : Option Int

/-- The gateway payload of `CreateOrganization`: the name, plus the
description when truthy. -/
def createGatewayData (a : CreateOrgArgs) : Dict :=
  if truthyS a.description then
    [("name", JVal.str a.name), ("description", JVal.str (a.description.getD ""))]
  else
    [("name", JVal.str a.name)]

/-- `CreateOrganization.take_action` (organization.py lines 222-253):
create in the gateway first (uncaught failure aborts), then — when
`--max-hosts` was given (`is not None`) — try the controller update; its
failure is caught, leaving `max_hosts = None` in the reported record. -/
def createOrgTakeAction (env : Env) (a : CreateOrgArgs) :
    Except PyError Dict × List Call :=
  let gdata := createGatewayData a
  match env.gwCreateOrg gdata with
  | Except.error e => (Except.error e, [Call.gwCreateOrg gdata])
  | Except.ok gw =>
    let i := jint (ditem gw "id")
    match a.maxHosts with
    | none => (Except.ok gw, [Call.gwCreateOrg gdata])
    | some mh =>
      let cdata := [("max_hosts", JVal.num mh)]
      match env.ctrlUpdateOrg i cdata with
      | Except.ok ctrl =>
        (Except.ok (dset gw "max_hosts" (dget ctrl "max_hosts" JVal.null)),
         [Call.gwCreateOrg gdata, Call.ctrlUpdateOrg i cdata])
      | Except.error _ =>
        (Except.ok (dset gw "max_hosts" JVal.null),
         [Call.gwCreateOrg gdata, Call.ctrlUpdateOrg i cdata])

/-- Arguments of `aap organization set`: target reference (positional,
`--id` or `--org-name`) and the new property values. -/
structure SetOrgArgs where
  organization : Option String
  id : Option Int
  orgName : Option String
  name : Option String
  description : Option String
  maxHosts : Option Int

/-- Resolution phase of `SetOrganization.take_action` (lines 418-456):
like the show command's, except that the bare `--id` arm uses the id
directly without fetching the record. -/
def setOrgResolve (env : Env) (a : SetOrgArgs) : Except PyError Int :=
  if !(truthyS a.organization || truthyI a.id || truthyS a.orgName) then
    Except.error (PyError.commandError
      "Must specify an organization (by positional argument, --id, or --org-name)")
  else if truthyS a.orgName && truthyS a.organization then
    Except.error (PyError.commandError
      "Cannot use positional argument with --org-name (redundant)")
  else if truthyI a.id && truthyS a.organization then
    let i := a.id.getD 0
    let ref := a.organization.getD ""
    match env.gwGetOrg i with
    | Except.error _ => Except.error (PyError.commandError
        ("Organization with ID " ++ toString i ++ " not found"))
    | Except.ok org =>
      if !(pyEqStr (ditem org "name") ref) then
        Except.error (PyError.commandError
          (orgMismatchMsg i (pyStr (ditem org "name")) ref))
      else Except.ok i
  else if truthyI a.id then
    Except.ok (a.id.getD 0)
  else
    let s := if truthyS a.orgName then a.orgName.getD "" else a.organization.getD ""
    let orgs := env.gwListOrgs s
    if orgs.count = 0 then
      Except.error (PyError.commandError
        ("Organization with name \x27" ++ s ++ "\x27 not found"))
    else if orgs.count > 1 then
      Except.error (PyError.commandError
        ("Multiple organizations found with name \x27" ++ s ++ "\x27"))
    else
      match orgs.results with
      | [] => Except.error PyError.indexError
      | org :: _ => Except.ok (jint (ditem org "id"))

/-- The `gateway_update` payload of `SetOrganization`: the new name when
truthy, the new description when not `None`. -/
def setGatewayUpdate (a : SetOrgArgs) : Dict :=
  (if truthyS a.name then [("name", JVal.str (a.name.getD ""))] else []) ++
  (match a.description with
   | some d => [("description", JVal.str d)]
   | none => [])

/-- Write phase of `SetOrganization.take_action` (lines 458-492): gateway
update first when it has fields (uncaught failure aborts); then the
controller update when `--max-hosts` was given, with failure caught and
only logged; a still-unset `updated_org` at the end raises. -/
def setOrgWritePhase (env : Env) (a : SetOrgArgs) (i : Int) :
    Except PyError Dict × List Call :=
  let gupd := setGatewayUpdate a
  if gupd.isEmpty then
    match a.maxHosts with
    | some mh =>
      let cupd := [("max_hosts", JVal.num mh)]
      match env.ctrlUpdateOrg i cupd with
      | Except.ok ctrl =>
        match env.gwGetOrg i with
        | Except.ok u =>
          (Except.ok (dset u "max_hosts" (dget ctrl "max_hosts" JVal.null)),
           [Call.ctrlUpdateOrg i cupd])
        | Except.error _ =>
          (Except.error (PyError.commandError "No properties specified to update"),
           [Call.ctrlUpdateOrg i cupd])
      | Except.error _ =>
        (Except.error (PyError.commandError "No properties specified to update"),
         [Call.ctrlUpdateOrg i cupd])
    | none =>
      (Except.error (PyError.commandError "No properties specified to update"), [])
  else
    match env.gwUpdateOrg i gupd with
    | Except.error e => (Except.error e, [Call.gwUpdateOrg i gupd])
    | Except.ok u =>
      match a.maxHosts with
      | some mh =>
        let cupd := [("max_hosts", JVal.num mh)]
        match env.ctrlUpdateOrg i cupd with
        | Except.ok ctrl =>
          (Except.ok (dset u "max_hosts" (dget ctrl "max_hosts" JVal.null)),
           [Call.gwUpdateOrg i gupd, Call.ctrlUpdateOrg i cupd])
        | Except.error _ =>
          (Except.ok u, [Call.gwUpdateOrg i gupd, Call.ctrlUpdateOrg i cupd])
      | none => (Except.ok u, [Call.gwUpdateOrg i gupd])

/-- `SetOrganization.take_action`: resolve the target, then run the write
phase (resolution performs no writes). -/
def setOrgTakeAction (env : Env) (a : SetOrgArgs) : Except PyError Dict × List Call :=
  match setOrgResolve env a with
  | Except.error e => (Except.error e, [])
  | Except.ok i => setOrgWritePhase env a i

/-- C5: on the create and update paths that touch both services, the
identity-service write is issued first and its failure fails the whole
command with no operational write attempted; the subsequent
operational-service write is best-effort: its failure leaves the command
successful, reporting the identity-level result with the operational field
unapplied, the trace showing the identity write before the operational
one. -/
theorem write_ordering_best_effort :
    (∀ (env : Env) (a : CreateOrgArgs) (e : PyError),
      env.gwCreateOrg (createGatewayData a) = Except.error e →
        createOrgTakeAction env a =
          (Except.error e, [Call.gwCreateOrg (createGatewayData a)])) ∧
    (∀ (env : Env) (a : CreateOrgArgs) (gw : Dict) (mh : Int) (e : PyError),
      a.maxHosts = some mh →
      env.gwCreateOrg (createGatewayData a) = Except.ok gw →
      env.ctrlUpdateOrg (jint (ditem gw "id")) [("max_hosts", JVal.num mh)] =
        Except.error e →
        createOrgTakeAction env a =
          (Except.ok (dset gw "max_hosts" JVal.null),
           [Call.gwCreateOrg (createGatewayData a),
            Call.ctrlUpdateOrg (jint (ditem gw "id")) [("max_hosts", JVal.num mh)]])) ∧
    (∀ (env : Env) (a : SetOrgArgs) (i : Int) (e : PyError),
      setOrgResolve env a = Except.ok i →
      setGatewayUpdate a ≠ [] →
      env.gwUpdateOrg i (setGatewayUpdate a) = Except.error e →
        setOrgTakeAction env a =
          (Except.error e, [Call.gwUpdateOrg i (setGatewayUpdate a)])) ∧
    (∀ (env : Env) (a : SetOrgArgs) (i : Int) (u : Dict) (mh : Int) (e : PyError),
      setOrgResolve env a = Except.ok i →
      setGatewayUpdate a ≠ [] →
      env.gwUpdateOrg i (setGatewayUpdate a) = Except.ok u →
      a.maxHosts = some mh →
      env.ctrlUpdateOrg i [("max_hosts", JVal.num mh)] = Except.error e →
        setOrgTakeAction env a =
          (Except.ok u,
           [Call.gwUpdateOrg i (setGatewayUpdate a),
            Call.ctrlUpdateOrg i [("max_hosts", JVal.num mh)]])) := by
  refine ⟨?_, ?_, ?_, ?_⟩
  · intro env a e h
    simp [createOrgTakeAction, h]
  · intro env a gw mh e hmh hgw hctrl
    simp [createOrgTakeAction, hgw, hmh, hctrl]
  · intro env a i e hres hne hupd
    have hgne : (setGatewayUpdate a).isEmpty = false := by
      cases hg : setGatewayUpdate a with
      | nil => exact absurd hg hne
      | cons x xs => rfl
    simp [setOrgTakeAction, hres, setOrgWritePhase, hgne, hupd]
  · intro env a i u mh e hres hne hupd hmh hctrl
    have hgne : (setGatewayUpdate a).isEmpty = false := by
      cases hg : setGatewayUpdate a with
      | nil => exact absurd hg hne
      | cons x xs => rfl
    simp [setOrgTakeAction, hres, setOrgWritePhase, hgne, hupd, hmh, hctrl]

/-- An environment in which the gateway create succeeds (organization 7)
and every controller write fails. -/
def envCreate : Env :=
  { stubEnv with
    gwCreateOrg := fun _ =>
      Except.ok [("id", JVal.num 7), ("name", JVal.str "neworg")] }

/-- C5 witness: `aap organization create neworg --max-hosts 25` with the
controller unreachable still succeeds, reporting the created record with
`max_hosts` `None`, after the trace gateway-create → controller-update. -/
theorem write_ordering_best_effort_witness :
    createOrgTakeAction envCreate ⟨"neworg", none, some 25⟩ =
      (Except.ok (dset [("id", JVal.num 7), ("name", JVal.str "neworg")]
        "max_hosts" JVal.null),
       [Call.gwCreateOrg (createGatewayData ⟨"neworg", none, some 25⟩),
        Call.ctrlUpdateOrg 7 [("max_hosts", JVal.num 25)]]) :=
  write_ordering_best_effort.2.1 envCreate ⟨"neworg", none, some 25⟩
    [("id", JVal.num 7), ("name", JVal.str "neworg")] 25
    (PyError.exn "unavailable") rfl rfl rfl

/-- `utils.format_name`: numeric-looking names are wrapped in double
quotes for display.  (The source also quotes float-shaped names; no claim
or input here depends on such names, so only the integer probe is
modelled.) -/
def formatName (s : String) : String :=
  if (pyIntParse s).isSome then "\x22" ++ s ++ "\x22" else s

/-- Python `str(e)` for a caught exception, as interpolated into
"Failed to delete ..." messages. -/
def errStr : PyError → String
  | PyError.commandError m => m
  | PyError.indexError => "list index out of range"
  | PyError.exn m => m

/-- Outcome reported (as a stdout line) for one token of a best-effort
delete loop.  `deleted name i` carries the raw resolved name and id; the
display-only `format_name` quoting of the printed line is not re-applied
here. -/
inductive DelOutcome where
  | deleted (name : String) (i : Int)
  | notFound (tok : String)
  | multiple (tok : String)
  | failed (tok : String)
deriving DecidableEq

/-- One iteration of the `DeleteOrganization` positional loop
(organization.py lines 343-367): exact-name list first; with zero matches
try `int(token)` and an ID fetch, any failure giving the "not found" line;
with several matches report ambiguity and continue; then delete, an
exception becoming the "Failed to delete" line. -/
def deleteOrgToken (env : Env) (tok : String) : DelOutcome :=
  let orgs := env.gwListOrgs tok
  if orgs.count = 0 then
    match pyIntParse tok with
    | none => DelOutcome.notFound tok
    | some i =>
      match env.gwGetOrg i with
      | Except.error _ => DelOutcome.notFound tok
      | Except.ok org =>
        match env.gwDeleteOrg i with
        | Except.ok _ => DelOutcome.deleted (pyStr (ditem org "name")) i
        | Except.error _ => DelOutcome.failed tok
  else if orgs.count > 1 then
    DelOutcome.multiple tok
  else
    match orgs.results with
    | [] => DelOutcome.failed tok
    | org :: _ =>
      let i := jint (ditem org "id")
      match env.gwDeleteOrg i with
      | Except.ok _ => DelOutcome.deleted (pyStr (ditem org "name")) i
      | Except.error _ => DelOutcome.failed tok

/-- Arguments of `aap organization delete`: zero or more positional
tokens plus the mutually exclusive `--id` / `--name` flags. -/
structure DeleteOrgArgs where
  organizations : List String
  id : Option Int
  name : Option String

/-- `DeleteOrganization.take_action` (lines 283-367): validation, then the
fail-fast single-resource flag path (one deletion or a raised error), or
the best-effort loop over the positional tokens. -/
def deleteOrgTakeAction (env : Env) (a : DeleteOrgArgs) :
    Except PyError (List DelOutcome) :=
  if !(!a.organizations.isEmpty || truthyI a.id || truthyS a.name) then
    Except.error (PyError.commandError "Must specify organization(s) to delete")
  else if truthyS a.name && !a.organizations.isEmpty then
    Except.error (PyError.commandError
      "Cannot use positional arguments with --name (redundant)")
  else if truthyI a.id && a.organizations.length > 1 then
    Except.error (PyError.commandError
      "Cannot use --id with multiple positional arguments")
  else if truthyI a.id || truthyS a.name then
    let resolved : Except PyError Dict :=
      if truthyI a.id && !a.organizations.isEmpty then
        let i := a.id.getD 0
        let ref := a.organizations.headD ""
        match env.gwGetOrg i with
        | Except.error _ => Except.error (PyError.commandError
            ("Organization with ID " ++ toString i ++ " not found"))
        | Except.ok org =>
          if !(pyEqStr (ditem org "name") ref) then
            Except.error (PyError.commandError
              (orgMismatchMsg i (pyStr (ditem org "name")) ref))
          else Except.ok org
      else if truthyI a.id then
        let i := a.id.getD 0
        match env.gwGetOrg i with
        | Except.error _ => Except.error (PyError.commandError
            ("Organization with ID " ++ toString i ++ " not found"))
        | Except.ok org => Except.ok org
      else
        let s := a.name.getD ""
        let orgs := env.gwListOrgs s
        if orgs.count = 0 then
          Except.error (PyError.commandError
            ("Organization with name \x27" ++ s ++ "\x27 not found"))
        else if orgs.count > 1 then
          Except.error (PyError.commandError
            ("Multiple organizations found with name \x27" ++ s ++ "\x27"))
        else
          match orgs.results with
          | [] => Except.error PyError.indexError
          | org :: _ => Except.ok org
    match resolved with
    | Except.error e => Except.error e
    | Except.ok org =>
      let i := jint (ditem org "id")
      match env.gwDeleteOrg i with
      | Except.ok _ => Except.ok [DelOutcome.deleted (pyStr (ditem org "name")) i]
      | Except.error e => Except.error (PyError.commandError
          ("Failed to delete organization " ++
            formatName (pyStr (ditem org "name")) ++ ": " ++ errStr e))
  else
    Except.ok (a.organizations.map (deleteOrgToken env))

/-- The cross-reference failure message of `DeleteInventory.take_action`. -/
def invMismatchMsg (i : Int) (fetched expected : String) : String :=
  "ID " ++ toString i ++ " and name \x27" ++ expected ++
    "\x27 refer to different inventories: ID " ++ toString i ++ " is \x27" ++
    fetched ++ "\x27, not \x27" ++ expected ++ "\x27"

/-- One iteration of the `DeleteInventory` positional loop (inventory.py
lines 469-490): `find_resource` over the name-filtered list; on its
failure an all-digits token gets an ID fetch (whose own failure reaches
the outer handler), any other token fails; then delete.  Every failure
becomes the per-token "Failed to delete" line and the loop continues. -/
def deleteInvToken (env : Env) (tok : String) : DelOutcome :=
  let invs := env.ctrlListInvs tok
  let resolved : Except PyError (Int × String) :=
    match findResource invs tok with
    | Except.ok inv => Except.ok (jint (ditem inv "id"), pyStr (ditem inv "name"))
    | Except.error _ =>
      if pyIsDigit tok then
        match env.ctrlGetInv (digitsToInt tok) with
        | Except.ok inv => Except.ok (digitsToInt tok, pyStr (ditem inv "name"))
        | Except.error e => Except.error e
      else
        Except.error (PyError.commandError
          ("Inventory \x27" ++ tok ++ "\x27 not found"))
  match resolved with
  | Except.error _ => DelOutcome.failed tok
  | Except.ok (i, nm) =>
    match env.ctrlDeleteInv i with
    | Except.ok _ => DelOutcome.deleted nm i
    | Except.error _ => DelOutcome.failed tok

/-- Arguments of `aap inventory delete`. -/
structure DeleteInvArgs where
  inventory : List String
  id : Option Int
  name : Option String

/-- `DeleteInventory.take_action` (inventory.py lines 410-490): validation,
the fail-fast single-resource flag path — whose `--name` branch applies
`find_resource` to the name-filtered list, any failure re-raised as the
"not found" error — or the best-effort positional loop. -/
def deleteInvTakeAction (env : Env) (a : DeleteInvArgs) :
    Except PyError (List DelOutcome) :=
  if !(!a.inventory.isEmpty || truthyI a.id || truthyS a.name) then
    Except.error (PyError.commandError "Must specify inventory(s) to delete")
  else if truthyS a.name && !a.inventory.isEmpty then
    Except.error (PyError.commandError
      "Cannot use positional arguments with --name (redundant)")
  else if truthyI a.id && a.inventory.length > 1 then
    Except.error (PyError.commandError
      "Cannot use --id with multiple positional arguments")
  else if truthyI a.id || truthyS a.name then
    let resolved : Except PyError Dict :=
      if truthyI a.id && !a.inventory.isEmpty then
        let i := a.id.getD 0
        let ref := a.inventory.headD ""
        match env.ctrlGetInv i with
        | Except.error _ => Except.error (PyError.commandError
            ("Inventory with ID " ++ toString i ++ " not found"))
        | Except.ok inv =>
          if !(pyEqStr (ditem inv "name") ref) then
            Except.error (PyError.commandError
              (invMismatchMsg i (pyStr (ditem inv "name")) ref))
          else Except.ok inv
      else if truthyI a.id then
        let i := a.id.getD 0
        match env.ctrlGetInv i with
        | Except.error _ => Except.error (PyError.commandError
            ("Inventory with ID " ++ toString i ++ " not found"))
        | Except.ok inv => Except.ok inv
      else
        let s := a.name.getD ""
        match findResource (env.ctrlListInvs s) s with
        | Except.error _ => Except.error (PyError.commandError
            ("Inventory with name \x27" ++ s ++ "\x27 not found"))
        | Except.ok inv => Except.ok inv
    match resolved with
    | Except.error e => Except.error e
    | Except.ok inv =>
      let i := jint (ditem inv "id")
      match env.ctrlDeleteInv i with
      | Except.ok _ => Except.ok [DelOutcome.deleted (pyStr (ditem inv "name")) i]
      | Except.error e => Except.error (PyError.commandError
          ("Failed to delete inventory " ++
            formatName (pyStr (ditem inv "name")) ++ ": " ++ errStr e))
  else
    Except.ok (a.inventory.map (deleteInvToken env))

/-- C6: a multi-target delete over bare positional tokens processes every
token — the outcome list is the independent per-token map, so one token's
resolution or deletion failure is reported as that token's outcome and
cannot affect any other token — while the single-target flag path fails
fast: a resolution failure aborts the command with an error. -/
theorem bulk_delete_partial_failure :
    (∀ (env : Env) (toks : List String), toks ≠ [] →
      deleteOrgTakeAction env ⟨toks, none, none⟩ =
        Except.ok (toks.map (deleteOrgToken env)) ∧
      (toks.map (deleteOrgToken env)).length = toks.length ∧
      ∀ k : Nat, (toks.map (deleteOrgToken env))[k]? =
        (toks[k]?).map (deleteOrgToken env)) ∧
    (∀ (env : Env) (toks : List String), toks ≠ [] →
      deleteInvTakeAction env ⟨toks, none, none⟩ =
        Except.ok (toks.map (deleteInvToken env)) ∧
      (toks.map (deleteInvToken env)).length = toks.length ∧
      ∀ k : Nat, (toks.map (deleteInvToken env))[k]? =
        (toks[k]?).map (deleteInvToken env)) ∧
    (∀ (env : Env) (nm : String), nm ≠ "" →
      (env.gwListOrgs nm).count = 0 →
      deleteOrgTakeAction env ⟨[], none, some nm⟩ =
        Except.error (PyError.commandError
          ("Organization with name \x27" ++ nm ++ "\x27 not found"))) := by
  refine ⟨?_, ?_, ?_⟩
  · intro env toks hne
    have ht : toks.isEmpty = false := by
      cases hg : toks with
      | nil => exact absurd hg hne
      | cons x xs => rfl
    refine ⟨?_, by simp, fun k => by simp⟩
    simp [deleteOrgTakeAction, ht, truthyI, truthyS]
  · intro env toks hne
    have ht : toks.isEmpty = false := by
      cases hg : toks with
      | nil => exact absurd hg hne
      | cons x xs => rfl
    refine ⟨?_, by simp, fun k => by simp⟩
    simp [deleteInvTakeAction, ht, truthyI, truthyS]
  · intro env nm hne hc
    have hts : truthyS (some nm) = true := by simp [truthyS, hne]
    simp [deleteOrgTakeAction, hts, truthyI, hc]

/-- Three-token environment: organizations "alpha" (id 1) and "carol"
(id 3) exist uniquely, "bob" does not and is not numeric; deletions
succeed. -/
def envBulk : Env :=
  { stubEnv with
    gwListOrgs := fun s =>
      if s = "alpha" then ⟨1, [[("id", JVal.num 1), ("name", JVal.str "alpha")]]⟩
      else if s = "carol" then ⟨1, [[("id", JVal.num 3), ("name", JVal.str "carol")]]⟩
      else ⟨0, []⟩
    gwDeleteOrg := fun _ => Except.ok () }

/-- C6 witness: `aap organization delete alpha bob carol` — the middle
token fails resolution, yet the first and third are attempted and
deleted. -/
theorem bulk_delete_partial_failure_witness :
    deleteOrgTakeAction envBulk ⟨["alpha", "bob", "carol"], none, none⟩ =
      Except.ok [DelOutcome.deleted "alpha" 1, DelOutcome.notFound "bob",
        DelOutcome.deleted "carol" 3] :=
  ((bulk_delete_partial_failure.1 envBulk ["alpha", "bob", "carol"]
    (by simp)).1).trans (by rfl)

/-- An environment in which the name lookup for "5" is ambiguous (two
organizations literally named "5"), while organization id 5 exists and
deletion would succeed. -/
def envNumDup : Env :=
  { stubEnv with
    gwListOrgs := fun s =>
      if s = "5" then
        ⟨2, [[("id", JVal.num 21), ("name", JVal.str "5")],
             [("id", JVal.num 22), ("name", JVal.str "5")]]⟩
      else ⟨0, []⟩
    gwGetOrg := fun i =>
      if i = 5 then Except.ok [("id", JVal.num 5), ("name", JVal.str "five")]
      else Except.error (PyError.exn "HTTP 404")
    gwDeleteOrg := fun _ => Except.ok () }

/-- C7 counterexample: for the organization delete loop, the numeric token
"5" whose name lookup yields two matches is **not** fetched by ID — even
though the ID fetch and the deletion would both succeed — but reported as
ambiguous, contradicting the claim that any numeric token without exactly
one name match falls back to an ID fetch. -/
theorem delete_token_numeric_ambiguous_counterexample :
    (envNumDup.gwListOrgs "5").count = 2 ∧
    pyIntParse "5" = some 5 ∧
    envNumDup.gwGetOrg 5 = Except.ok [("id", JVal.num 5), ("name", JVal.str "five")] ∧
    envNumDup.gwDeleteOrg 5 = Except.ok () ∧
    deleteOrgToken envNumDup "5" = DelOutcome.multiple "5" ∧
    (∀ nm i, deleteOrgToken envNumDup "5" ≠ DelOutcome.deleted nm i) := by
  refine ⟨rfl, rfl, rfl, rfl, rfl, ?_⟩
  intro nm i h
  rw [(rfl : deleteOrgToken envNumDup "5" = DelOutcome.multiple "5")] at h
  cases h

/-- C7 amended: each bare positional token of a multi-target delete is
resolved per-token.  For the organization loop: exactly one name match is
used; zero matches fall back to an ID fetch when the token parses as an
integer and fail otherwise; but **more than one match fails the token
immediately, with no ID fallback**.  For the inventory loop the rule is as
claimed: a `find_resource` success is used, and on any `find_resource`
failure (including ambiguity) an all-digits token falls back to an ID
fetch while any other token fails. -/
theorem delete_token_resolution_rule :
    (∀ (env : Env) (tok : String) (org : Dict),
      (env.gwListOrgs tok).count = 1 →
      (env.gwListOrgs tok).results.head? = some org →
      env.gwDeleteOrg (jint (ditem org "id")) = Except.ok () →
        deleteOrgToken env tok =
          DelOutcome.deleted (pyStr (ditem org "name")) (jint (ditem org "id"))) ∧
    (∀ (env : Env) (tok : String),
      (env.gwListOrgs tok).count = 0 → pyIntParse tok = none →
        deleteOrgToken env tok = DelOutcome.notFound tok) ∧
    (∀ (env : Env) (tok : String) (n : Int) (e : PyError),
      (env.gwListOrgs tok).count = 0 → pyIntParse tok = some n →
      env.gwGetOrg n = Except.error e →
        deleteOrgToken env tok = DelOutcome.notFound tok) ∧
    (∀ (env : Env) (tok : String) (n : Int) (org : Dict),
      (env.gwListOrgs tok).count = 0 → pyIntParse tok = some n →
      env.gwGetOrg n = Except.ok org → env.gwDeleteOrg n = Except.ok () →
        deleteOrgToken env tok =
          DelOutcome.deleted (pyStr (ditem org "name")) n) ∧
    (∀ (env : Env) (tok : String),
      (env.gwListOrgs tok).count > 1 →
        deleteOrgToken env tok = DelOutcome.multiple tok) ∧
    (∀ (env : Env) (tok : String) (inv : Dict),
      findResource (env.ctrlListInvs tok) tok = Except.ok inv →
      env.ctrlDeleteInv (jint (ditem inv "id")) = Except.ok () →
        deleteInvToken env tok =
          DelOutcome.deleted (pyStr (ditem inv "name")) (jint (ditem inv "id"))) ∧
    (∀ (env : Env) (tok : String) (e : PyError) (inv : Dict),
      findResource (env.ctrlListInvs tok) tok = Except.error e →
      pyIsDigit tok = true →
      env.ctrlGetInv (digitsToInt tok) = Except.ok inv →
      env.ctrlDeleteInv (digitsToInt tok) = Except.ok () →
        deleteInvToken env tok =
          DelOutcome.deleted (pyStr (ditem inv "name")) (digitsToInt tok)) ∧
    (∀ (env : Env) (tok : String) (e : PyError),
      findResource (env.ctrlListInvs tok) tok = Except.error e →
      pyIsDigit tok = false →
        deleteInvToken env tok = DelOutcome.failed tok) := by
  refine ⟨?_, ?_, ?_, ?_, ?_, ?_, ?_, ?_⟩
  · intro env tok org hc hh hd
    have h0 : ¬ (env.gwListOrgs tok).count = 0 := by omega
    have h1 : ¬ (env.gwListOrgs tok).count > 1 := by omega
    match hr : (env.gwListOrgs tok).results with
    | [] => rw [hr] at hh; cases hh
    | o :: rest =>
      rw [hr] at hh
      cases hh
      simp [deleteOrgToken, h0, h1, hr, hd]
  · intro env tok hc hp
    simp [deleteOrgToken, hc, hp]
  · intro env tok n e hc hp hg
    simp [deleteOrgToken, hc, hp, hg]
  · intro env tok n org hc hp hg hd
    simp [deleteOrgToken, hc, hp, hg, hd]
  · intro env tok hc
    have h0 : ¬ (env.gwListOrgs tok).count = 0 := by omega
    simp [deleteOrgToken, h0, hc]
  · intro env tok inv hf hd
    simp [deleteInvToken, hf, hd]
  · intro env tok e inv hf hdig hg hd
    simp [deleteInvToken, hf, hdig, hg, hd]
  · intro env tok e hf hdig
    simp [deleteInvToken, hf, hdig]

/-- An environment for the amended rule's witness: inventories named "9"
are ambiguous with no id match, inventory id 9 exists, deletion succeeds. -/
def envInvNine : Env :=
  { stubEnv with
    ctrlListInvs := fun s =>
      if s = "9" then
        ⟨2, [[("id", JVal.num 31), ("name", JVal.str "9")],
             [("id", JVal.num 32), ("name", JVal.str "9")]]⟩
      else ⟨0, []⟩
    ctrlGetInv := fun i =>
      if i = 9 then Except.ok [("id", JVal.num 9), ("name", JVal.str "nine")]
      else Except.error (PyError.exn "HTTP 404")
    ctrlDeleteInv := fun _ => Except.ok () }

/-- C7 amended witness: the ambiguous numeric organization token "5" fails
with the ambiguity outcome, while the equally ambiguous inventory token
"9" falls back to the ID fetch and deletes inventory 9. -/
theorem delete_token_resolution_rule_witness :
    deleteOrgToken envNumDup "5" = DelOutcome.multiple "5" ∧
    deleteInvToken envInvNine "9" = DelOutcome.deleted "nine" 9 :=
  ⟨delete_token_resolution_rule.2.2.2.2.1 envNumDup "5" (by decide),
   delete_token_resolution_rule.2.2.2.2.2.2.1 envInvNine "9"
     (PyError.commandError ("Multiple resources found with name \x279\x27"))
     [("id", JVal.num 9), ("name", JVal.str "nine")] rfl rfl rfl rfl⟩

/-- An environment with two inventories literally named "42", one of which
has id 42; deletion succeeds. -/
def envInvDup : Env :=
  { stubEnv with
    ctrlListInvs := fun s =>
      if s = "42" then
        ⟨2, [[("id", JVal.num 42), ("name", JVal.str "42")],
             [("id", JVal.num 7), ("name", JVal.str "42")]]⟩
      else ⟨0, []⟩
    ctrlDeleteInv := fun _ => Except.ok () }

/-- C8 counterexample: `aap inventory delete --name 42` with two
inventories named "42" does probe the value as a numeric ID —
`find_resource` selects, from the name-filtered results, the record whose
id equals `int("42")` — and deletes it instead of raising the ambiguity
error the exact-name match alone would produce. -/
theorem name_flag_numeric_probe_counterexample :
    ((envInvDup.ctrlListInvs "42").results.filter
      (fun r => pyEqStr (dget r "name" JVal.null) "42")).length = 2 ∧
    findResource (envInvDup.ctrlListInvs "42") "42" =
      Except.ok [("id", JVal.num 42), ("name", JVal.str "42")] ∧
    deleteInvTakeAction envInvDup ⟨[], none, some "42"⟩ =
      Except.ok [DelOutcome.deleted "42" 42] :=
  ⟨rfl, rfl, rfl⟩

/-- C8 amended: a `--name`-style value on the organization delete path is
resolved purely by the exact-name filter's cardinality — for every
environment, hence with no influence of any ID lookup, an ambiguous count
errs and a unique one is deleted.  On the inventory delete path, however,
the `--name` value is passed through `find_resource`, which first probes
the name-filtered results for a record whose id equals the value parsed as
an integer, so a purely numeric `--name` value can select a record by that
id match. -/
theorem name_flag_lookup_rule :
    (∀ (env : Env) (nm : String), nm ≠ "" →
      ((env.gwListOrgs nm).count > 1 →
        deleteOrgTakeAction env ⟨[], none, some nm⟩ =
          Except.error (PyError.commandError
            ("Multiple organizations found with name \x27" ++ nm ++ "\x27"))) ∧
      (∀ org, (env.gwListOrgs nm).count = 1 →
        (env.gwListOrgs nm).results.head? = some org →
        env.gwDeleteOrg (jint (ditem org "id")) = Except.ok () →
        deleteOrgTakeAction env ⟨[], none, some nm⟩ =
          Except.ok [DelOutcome.deleted (pyStr (ditem org "name"))
            (jint (ditem org "id"))])) ∧
    (∀ (env : Env) (nm : String) (n : Int) (r : Dict), nm ≠ "" →
      pyIntParse nm = some n →
      (env.ctrlListInvs nm).results.find?
        (fun r => pyEqInt (dget r "id" JVal.null) n) = some r →
      env.ctrlDeleteInv (jint (ditem r "id")) = Except.ok () →
        deleteInvTakeAction env ⟨[], none, some nm⟩ =
          Except.ok [DelOutcome.deleted (pyStr (ditem r "name"))
            (jint (ditem r "id"))]) := by
  refine ⟨?_, ?_⟩
  · intro env nm hne
    have hts : truthyS (some nm) = true := by simp [truthyS, hne]
    constructor
    · intro hc
      have h0 : ¬ (env.gwListOrgs nm).count = 0 := by omega
      simp [deleteOrgTakeAction, hts, truthyI, h0, hc]
    · intro org hc hh hd
      have h0 : ¬ (env.gwListOrgs nm).count = 0 := by omega
      have h1 : ¬ (env.gwListOrgs nm).count > 1 := by omega
      match hr : (env.gwListOrgs nm).results with
      | [] => rw [hr] at hh; cases hh
      | o :: rest =>
        rw [hr] at hh
        cases hh
        simp [deleteOrgTakeAction, hts, truthyI, h0, h1, hr, hd]
  · intro env nm n r hne hp hf hd
    have hts : truthyS (some nm) = true := by simp [truthyS, hne]
    have hfr : findResource (env.ctrlListInvs nm) nm = Except.ok r :=
      findResource_id_first _ _ _ _ hp hf
    simp [deleteInvTakeAction, hts, truthyI, hfr, hd]

/-- C8 amended witness: `--name 5` on the organization path errs as
ambiguous although organization 5 exists (no ID probe), while `--name 42`
on the inventory path selects and deletes inventory 42 by the id probe
from among two name matches. -/
theorem name_flag_lookup_rule_witness :
    deleteOrgTakeAction envNumDup ⟨[], none, some "5"⟩ =
      Except.error (PyError.commandError
        ("Multiple organizations found with name \x27" ++ "5" ++ "\x27")) ∧
    deleteInvTakeAction envInvDup ⟨[], none, some "42"⟩ =
      Except.ok [DelOutcome.deleted "42" 42] :=
  ⟨(name_flag_lookup_rule.1 envNumDup "5" (by decide)).1 (by decide),
   name_flag_lookup_rule.2 envInvDup "42" 42
     [("id", JVal.num 42), ("name", JVal.str "42")] (by decide) rfl rfl rfl⟩

end AAPClient
